import Mathlib

/-!
A verification development for the LinkedIn profile-scraper extension.

The repository ships several rewrites of the same content script.  The
definitions below are shallow embeddings of the JavaScript functions that
decide the verified properties, one Lean definition per source function:

* `Utils` — `src/src/lib/utils.js` (`extractProfileId`, `cleanProfileUrl`),
  shared verbatim by `src/scraper.js` and the `src/unnamed` content scripts.
* `Validator` — the validator module concatenated into `src/popup/popup.js`
  (`createValidatedProfile`).
* `StateMod` — the session-storage state module concatenated into
  `src/popup/popup.js` (`initializeScrapingState`, `stopScrapingState`,
  `checkShouldContinue`, `setNavigationState`, `isScrapingStopped`,
  `restoreStateFromSession`).
* `Controller` — `src/unnamed/part_007` (`checkContinueScraping` and the
  continuation decision of `startScraping`).
* `Pagination` — the modular pagination module (inside
  `src/src/lib/notifier.js` as staged) : `getTotalPages`.
* `ContentV2` — `src/unnamed/part_010` (its own `getTotalPages`,
  `processCurrentPage`, `stopScraping`, the navigation decision, and
  `saveProfiles`).
* `Extractor` — `src/src/lib/extractor.js` (`isValidName`,
  `extractNameFallback`).
* `Background` — `src/background.js` (`putMany` and the `SAVE_PROFILES`
  handler, the persistence collaborator).
* `Legacy` — `src/scraper.js` (`saveProfiles`).

DOM access is abstracted as it is in the spec: a selector query is a function
from a selector string to the optional `textContent` of the first match, and
a `querySelectorAll` result is a list of text contents.  JavaScript `null`
and `undefined` are `Option.none`; strings are Lean `String`; JS falsiness
of a string is emptiness.
-/

/-! ## JavaScript string primitives -/

/-- The whitespace class of JavaScript (`String.prototype.trim`, regex `\s`),
restricted to the code points the scraper ever meets. -/
def jsWhitespace (c : Char) : Bool :=
  c = ' ' ∨ c = '\t' ∨ c = '\n' ∨ c = '\r' ∨ c = Char.ofNat 11 ∨
    c = Char.ofNat 12 ∨ c = Char.ofNat 0xA0 ∨ c = Char.ofNat 0xFEFF ∨
    (0x2000 ≤ c.toNat ∧ c.toNat ≤ 0x200A) ∨ c = Char.ofNat 0x2028 ∨
    c = Char.ofNat 0x2029 ∨ c = Char.ofNat 0x202F ∨ c = Char.ofNat 0x205F ∨
    c = Char.ofNat 0x3000 ∨ c = Char.ofNat 0x1680

/-- Embeds `text.trim()` on the character list. -/
def jsTrimL (l : List Char) : List Char :=
  ((l.dropWhile jsWhitespace).reverse.dropWhile jsWhitespace).reverse

/-- Embeds `text.trim()`. -/
def jsTrim (s : String) : String := String.mk (jsTrimL s.data)

/-- Digit test of the regex class `\d`. -/
def isDigitChar (c : Char) : Bool := '0' ≤ c ∧ c ≤ '9'

/-- Value of a list of decimal digits (most significant first). -/
def digitsVal (l : List Char) : Nat :=
  l.foldl (fun acc c => acc * 10 + (c.toNat - '0'.toNat)) 0

/-- Embeds `parseInt(s)` on its implicit radix-10 path (no caller hands it
a hex-prefixed string): trim, optional sign, maximal leading digit run;
`none` is JavaScript `NaN`. -/
def jsParseInt (s : String) : Option Int :=
  let t := jsTrimL s.data
  let core : List Char → Option Int := fun l =>
    let ds := l.takeWhile isDigitChar
    if ds.isEmpty then none else some (Int.ofNat (digitsVal ds))
  match t with
  | '-' :: rest => (core rest).map (fun n => -n)
  | '+' :: rest => core rest
  | _ => core t

/-- Everything before the first occurrence of `sep` (`s.split(sep)[0]`). -/
def takeUntil (sep : Char) (l : List Char) : List Char :=
  l.takeWhile (fun c => c ≠ sep)

/-- Embeds `needle` occurs at the start of `hay`. -/
def startsWithL : List Char → List Char → Bool
  | _, [] => true
  | [], _ :: _ => false
  | c :: cs, d :: ds => c = d && startsWithL cs ds

/-- Embeds `hay.includes(needle)`. -/
def containsL : List Char → List Char → Bool
  | [], needle => needle.isEmpty
  | c :: cs, needle => startsWithL (c :: cs) needle || containsL cs needle

/-- ASCII `toLowerCase`, the fragment of JavaScript case folding the
status-phrase comparison exercises. -/
def jsToLower (s : String) : String := String.mk (s.data.map Char.toLower)

/-- Embeds `s.split(sep)` for a single-character separator. -/
def splitOn (sep : Char) : List Char → List (List Char)
  | [] => [[]]
  | c :: cs =>
    let r := splitOn sep cs
    if c = sep then [] :: r
    else
      match r with
      | h :: t => (c :: h) :: t
      | [] => [[c]]

/-- A nonempty all-digit string (regex `^(\d+)$`). -/
def isAllDigits (l : List Char) : Bool := !l.isEmpty && l.all isDigitChar

/-- JavaScript falsiness of a nullable string: `null`/`undefined` or `""`. -/
def jsFalsy (o : Option String) : Bool :=
  match o with
  | none => true
  | some s => s = ""

/-- Embeds `getItem(key) || d` on a nullable string: `null` and the empty
string both fall back to the default. -/
def jsOrDefault (o : Option String) (d : String) : String :=
  match o with
  | none => d
  | some s => if s = "" then d else s

/-! ## `Utils` — `src/src/lib/utils.js` -/

namespace Utils

/-- Maximal run of characters other than `/` and `?` (the regex `[^/?]+`
greedy match, and also its `*` variant when applied after a first char). -/
def takeNonSlashQ : List Char → List Char
  | [] => []
  | c :: cs => if c = '/' ∨ c = '?' then [] else c :: takeNonSlashQ cs

/-- One attempt of the regex `\/in\/([^/?]+)` at the current position: the
literal `/in/` followed by at least one character other than `/` and `?`. -/
def inMatchAt (l : List Char) : Option (List Char) :=
  match l with
  | a :: b :: c :: d :: e :: ds =>
    if a = '/' ∧ b = 'i' ∧ c = 'n' ∧ d = '/' ∧ ¬(e = '/' ∨ e = '?') then
      some (e :: takeNonSlashQ ds)
    else none
  | _ => none

/-- Embeds `url.match(/\/in\/([^/?]+)/)`, group 1: the regex engine tries every
start position left to right. -/
def findInId : List Char → Option (List Char)
  | [] => none
  | c :: cs =>
    match inMatchAt (c :: cs) with
    | some r => some r
    | none => findInId cs

/-- Embeds `extractProfileId` of `src/src/lib/utils.js` lines 5-9: `null` for a
falsy url, otherwise group 1 of `/\/in\/([^/?]+)/` or `null`. -/
def extractProfileId (url : Option String) : Option String :=
  match url with
  | none => none
  | some s => if s = "" then none else (findInId s.data).map String.mk

/-- Embeds `cleanProfileUrl` of `src/src/lib/utils.js` lines 12-16: `null` for a
falsy url, otherwise `url.split("?")[0]`. -/
def cleanProfileUrl (url : Option String) : Option String :=
  match url with
  | none => none
  | some s => if s = "" then none else some (String.mk (takeUntil '?' s.data))

end Utils

/-! ## `ProfileRecord` — the persisted entity -/

/-- The persisted profile entity (spec section 3). -/
structure ProfileRecord where
  id : String
  name : String
  url : String
  headline : String
  location : String
  scrapedAt : Nat
deriving Repr, DecidableEq

/-! ## `Validator` — validator module of `src/popup/popup.js` -/

namespace Validator

/-- Embeds `x || fallback` on a JS string. -/
def jsOr (s fallback : String) : String := if s = "" then fallback else s

/-- Embeds `createValidatedProfile` of `src/popup/popup.js` lines 501-558.  The
candidate is the raw link (`null` when the anchor had no `href`), the
already-extracted name, and the headline/location text that
`extractAdditionalFields` pulled from the result element (`""` when no
selector matched).  The record is refused exactly when
`!profileId || !cleanUrl`. -/
def createValidatedProfile (profileLink : Option String)
    (profileName headline location : String) (now : Nat) :
    Option ProfileRecord :=
  let cleanUrl := Utils.cleanProfileUrl profileLink
  let profileId := Utils.extractProfileId cleanUrl
  if jsFalsy profileId || jsFalsy cleanUrl then none
  else
    some
      { id := profileId.getD ""
        name := jsOr profileName "Name not available"
        url := cleanUrl.getD ""
        headline := jsOr headline "Headline not available"
        location := jsOr location "Location not available"
        scrapedAt := now }

end Validator

/-! ## `StateMod` — session-storage state module of `src/popup/popup.js` -/

/-- The cross-navigation storage, restricted to the four keys the scraper
uses (`scraperActive`, `scraperStopped`, `scraperCurrentPage`,
`scraperTotalPages`); a field is `none` when the key is absent. -/
structure SessionStorage where
  active : Option String
  stopped : Option String
  currentPage : Option String
  totalPages : Option String
deriving Repr, DecidableEq

namespace StateMod

/-- Embeds `initializeScrapingState` of `src/popup/popup.js` lines 337-348 —
storage effect: remove `STOPPED`, then set `ACTIVE`, `CURRENT_PAGE`,
`TOTAL_PAGES`. -/
def initializeScrapingState (page total : Int) (s : SessionStorage) :
    SessionStorage :=
  { s with
    stopped := none
    active := some "true"
    currentPage := some (toString page)
    totalPages := some (toString total) }

/-- Embeds `stopScrapingState` of `src/popup/popup.js` lines 351-368 — storage
effect: remove `ACTIVE`, `CURRENT_PAGE`, `TOTAL_PAGES`, set `STOPPED`. -/
def stopScrapingState (s : SessionStorage) : SessionStorage :=
  { s with
    active := none
    currentPage := none
    totalPages := none
    stopped := some "true" }

/-- Embeds `checkShouldContinue` of `src/popup/popup.js` lines 371-380: the sticky
stopped flag is read first and wins over the active flag. -/
def checkShouldContinue (s : SessionStorage) : Bool :=
  if s.stopped = some "true" then false
  else s.active = some "true"

/-- Embeds `isScrapingStopped` of `src/popup/popup.js` lines 412-414. -/
def isScrapingStopped (s : SessionStorage) : Bool :=
  s.stopped = some "true"

/-- Embeds `restoreStateFromSession` of `src/popup/popup.js` lines 383-397 — the
values it reads (`parseInt(getItem(k) || "1")`); it writes nothing to the
session storage. -/
def restoreStateFromSession (s : SessionStorage) : Option Int × Option Int :=
  (jsParseInt (s.currentPage.getD "1"), jsParseInt (s.totalPages.getD "1"))

/-- Embeds `setNavigationState` of `src/popup/popup.js` lines 400-404: sets
`ACTIVE`, `CURRENT_PAGE`, `TOTAL_PAGES` and touches nothing else. -/
def setNavigationState (nextPage total : Int) (s : SessionStorage) :
    SessionStorage :=
  { s with
    active := some "true"
    currentPage := some (toString nextPage)
    totalPages := some (toString total) }

end StateMod

/-- The storage effect of `startScraping` in `src/unnamed/part_009` lines
398-402: `removeItem("scraperStopped")` then the three `setItem`s. -/
def startScrapingStorageV1 (page total : Int) (s : SessionStorage) :
    SessionStorage :=
  { s with
    stopped := none
    active := some "true"
    currentPage := some (toString page)
    totalPages := some (toString total) }

/-! ## `Controller` — `src/unnamed/part_007` -/

/-- What a fresh page load decides to do (`checkContinueScraping`):
`resume` carries the `currentPage`/`totalPages` restored from storage and
leads to extraction, save and the navigation decision; `abort` runs
nothing. -/
inductive RehydrateAction where
  | abort
  | resume (currentPage totalPages : Option Int)
deriving Repr, DecidableEq

namespace Controller

/-- The rehydration decision of `checkContinueScraping`
(`src/unnamed/part_007` lines 98-131): stopped is checked first, then
`checkShouldContinue`, then the listing-page test; only then is state
restored and the per-page work scheduled. -/
def checkContinueScraping (s : SessionStorage) (validPage : Bool) :
    RehydrateAction :=
  if StateMod.isScrapingStopped s then .abort
  else if ¬ StateMod.checkShouldContinue s then .abort
  else if ¬ validPage then .abort
  else
    let (c, t) := StateMod.restoreStateFromSession s
    .resume c t

/-- The continuation decision of `startScraping` and of the continuation
callback (`src/unnamed/part_007` lines 74-76 and 171):
`currentPage < totalPages || hasNextPage()`. -/
def continueDecision (currentPage totalPages : Int) (next : Bool) : Bool :=
  decide (currentPage < totalPages) || next

end Controller

/-- The continuation decision exactly as the spec words it: continue iff
(`totalPages` is known AND `currentPage < totalPages`) OR an enabled next
control is detected.  Stated from the spec, for comparison with the code. -/
def specContinuation (totalPages : Option Int) (currentPage : Int)
    (next : Bool) : Bool :=
  (match totalPages with
   | some t => decide (currentPage < t)
   | none => false) || next

/-! ## Pagination DOM abstraction -/

/-- The slice of the live DOM the total-page detectors read: `query` is
`document.querySelector(sel)` yielding the `textContent` of the first match
(`none` when nothing matches), and `indicatorNumbers` is the list of
`textContent`s of `querySelectorAll(".artdeco-pagination__indicator--number")`. -/
structure PaginationDom where
  query : String → Option String
  indicatorNumbers : List String

/-- The ordered pagination strategies, identical in
`src/src/lib/moduleLoader.js` (Selectors module), `src/scraper.js` and
`src/unnamed/part_010`. -/
def paginationSelectors : List String :=
  ["div.artdeco-pagination__page-state",
   ".artdeco-pagination__pages li:last-child button",
   ".artdeco-pagination__indicator--number:last-child"]

/-- One whitespace-plus run (regex `\s+`), returning what follows. -/
def skipSpaces1 (l : List Char) : Option (List Char) :=
  match l with
  | c :: cs => if jsWhitespace c then some (cs.dropWhile jsWhitespace) else none
  | [] => none

/-- One digit-plus run (regex `(\d+)`): the digits and what follows. -/
def grabDigits1 (l : List Char) : Option (List Char × List Char) :=
  match l with
  | c :: _ =>
    if isDigitChar c then some (l.takeWhile isDigitChar, l.dropWhile isDigitChar)
    else none
  | [] => none

/-- An attempt of the regex `Page\s+(\d+)\s+of\s+(\d+)` (flag `i`) at one
position; every adjacent pair of tokens draws from disjoint character
classes, so greedy maximal-munch is exact.  Returns group 2. -/
def pageOfMatchAt (l : List Char) : Option Nat :=
  match l with
  | p :: a :: g :: e :: rest =>
    if p.toLower = 'p' ∧ a.toLower = 'a' ∧ g.toLower = 'g' ∧ e.toLower = 'e' then
      match skipSpaces1 rest with
      | none => none
      | some r1 =>
        match grabDigits1 r1 with
        | none => none
        | some (_, r2) =>
          match skipSpaces1 r2 with
          | none => none
          | some r3 =>
            match r3 with
            | o :: f :: r4 =>
              if o.toLower = 'o' ∧ f.toLower = 'f' then
                match skipSpaces1 r4 with
                | none => none
                | some r5 =>
                  match grabDigits1 r5 with
                  | none => none
                  | some (ds, _) => some (digitsVal ds)
              else none
            | _ => none
    else none
  | _ => none

/-- Embeds `text.match(/Page\s+(\d+)\s+of\s+(\d+)/i)`: scan start positions left to
right, return group 2 of the first full match. -/
def findPageOf : List Char → Option Nat
  | [] => none
  | c :: cs =>
    match pageOfMatchAt (c :: cs) with
    | some y => some y
    | none => findPageOf cs

/-- The per-element body shared by every `getTotalPages` variant: trim the
`textContent`, try `Page X of Y` (return Y), then `^(\d+)$`; `none` makes
the loop move on to the next selector. -/
def tryPaginationText (txt : String) : Option Int :=
  let t := jsTrimL txt.data
  match findPageOf t with
  | some y => some (Int.ofNat y)
  | none => if isAllDigits t then some (Int.ofNat (digitsVal t)) else none

/-- The `for (const selector of paginationSelectors)` loop. -/
def scanPagination (dom : PaginationDom) : List String → Option Int
  | [] => none
  | sel :: rest =>
    match dom.query sel with
    | none => scanPagination dom rest
    | some txt =>
      match tryPaginationText txt with
      | some n => some n
      | none => scanPagination dom rest

/-- The shared tail of both detectors: after the selector loop, look at the
last pagination-indicator button and `parseInt` its trimmed text
(`none` = the `pageButtons` list is empty or the parse is `NaN`). -/
def paginationCore (dom : PaginationDom) : Option Int :=
  match scanPagination dom paginationSelectors with
  | some n => some n
  | none =>
    match dom.indicatorNumbers.getLast? with
    | some lastTxt => jsParseInt (jsTrim lastTxt)
    | none => none

/-! ## `Pagination` — the modular pagination module (staged inside
`src/src/lib/notifier.js`, lines 114-161) -/

namespace Pagination

/-- Embeds `getTotalPages` of the modular pagination module: same strategies, but
every failure path ends in `return 1` ("Could not determine total pages,
defaulting to 1"). -/
def getTotalPages (dom : PaginationDom) : Int :=
  (paginationCore dom).getD 1

end Pagination

/-! ## `ContentV2` — `src/unnamed/part_010` -/

namespace ContentV2

/-- Embeds `getTotalPages` of `src/unnamed/part_010` lines 55-103: identical
strategy cascade, but every failure path ends in `return null`. -/
def getTotalPages (dom : PaginationDom) : Option Int :=
  paginationCore dom

/-- The navigation decision of `startScraping` / `checkContinueScraping` in
`src/unnamed/part_010` lines 683-696 and 769-782: when `totalPages` is
known, `currentPage < totalPages && canGoNext`; when unknown, `canGoNext`
alone. -/
def shouldNavigate (totalPages : Option Int) (currentPage : Int)
    (canGoNext : Bool) : Bool :=
  match totalPages with
  | some t => decide (currentPage < t) && canGoNext
  | none => canGoNext

end ContentV2

/-- A DOM on which every pagination strategy fails: no selector matches and
there are no indicator buttons. -/
def emptyPaginationDom : PaginationDom :=
  { query := fun _ => none, indicatorNumbers := [] }

/-! ## `Background` — `src/background.js`, the persistence collaborator -/

namespace Background

/-- The IndexedDB-backed profile store: `initialized` is whether the
database and its object store exist; `records` is keyed by `id`
(`keyPath: "id"`). -/
structure Database where
  initialized : Bool
  records : List ProfileRecord
deriving Repr, DecidableEq

/-- Embeds `ensureReady` of `src/background.js` lines 77-83: (re)creates the
database and object store if needed. -/
def ensureReady (db : Database) : Database :=
  { db with initialized := true }

/-- Embeds `store.put(profile)`: replace the record with the same key, or append. -/
def putOne (recs : List ProfileRecord) (p : ProfileRecord) :
    List ProfileRecord :=
  if recs.any (fun r => r.id = p.id) then
    recs.map (fun r => if r.id = p.id then p else r)
  else recs ++ [p]

/-- Embeds `putMany` of `src/background.js` lines 85-107: `ensureReady`, then an
empty list returns 0 without touching the store ("No profiles to save, but
ensuring database exists"); otherwise every profile is `put`. -/
def putMany (db : Database) (ps : List ProfileRecord) : Database × Nat :=
  let db := ensureReady db
  if ps.isEmpty then (db, 0)
  else (ps.foldl (fun d p => { d with records := putOne d.records p }) db,
        ps.length)

/-- Embeds `getCount` of `src/background.js` lines 147-157. -/
def getCount (db : Database) : Nat := db.records.length

/-- The `SAVE_PROFILES` branch of the background message listener
(`src/background.js` lines 315-340): `putMany`, then the count, then the
`{saved, total}` response. -/
def handleSaveProfiles (db : Database) (data : List ProfileRecord) :
    Database × Nat × Nat :=
  let (db', saved) := putMany db data
  (db', saved, getCount db')

end Background

/-- Whether a page-level save sends the `SAVE_PROFILES` message to the
background script, and with which payload. -/
inductive SaveCall where
  | made (data : List ProfileRecord)
  | skipped
deriving Repr, DecidableEq

/-- Embeds `saveProfiles` of `src/scraper.js` lines 482-501: an empty list returns
before any message is sent (`if (profiles.length === 0) return;`). -/
def saveProfilesLegacy (profiles : List ProfileRecord) : SaveCall :=
  if profiles.length = 0 then .skipped else .made profiles

/-- Embeds `saveProfiles` of `src/src/lib/storageApi.js` lines 5-30: the message is
always sent, with `profiles || []` ("Always send message to ensure database
initialization, even with empty arrays"). -/
def saveProfilesStorageApi (profiles : Option (List ProfileRecord)) :
    SaveCall :=
  .made ((fun o => match o with | none => [] | some l => l) profiles)

/-! ## `ContentV2` session machine — `src/unnamed/part_010` -/

/-- A message the content script sends to the background script when a
session ends. -/
inductive OutMessage where
  | scrapeFailed (error : String)
  | scrapeDone (message : String)
deriving Repr, DecidableEq

namespace ContentV2

/-- The in-memory and per-tab durable state of the `part_010` content
script.  The `stor` fields are its session-storage keys: `scraperActive`,
`scraperCurrentPage`, `scraperTotalPages` — written by start, navigation
and stop — and `scraperConsecutiveEmpty`, which line 750 reads back on
every reload but which no statement in the repository ever writes (this
rewrite also has no stopped key). -/
structure ContentState where
  isScrapingActive : Bool
  scrapingInProgress : Bool
  consecutiveEmptyPages : Nat
  storActive : Option String
  storCurrentPage : Option String
  storTotalPages : Option String
  storConsecutiveEmpty : Option String
deriving Repr, DecidableEq

/-- Embeds `MAX_CONSECUTIVE_EMPTY_PAGES` of `src/unnamed/part_010` line 9. -/
def MAX_CONSECUTIVE_EMPTY_PAGES : Nat := 3

/-- Embeds `stopScraping` of `src/unnamed/part_010` lines 716-736: a redundant stop
is a no-op; otherwise the flags are dropped, the three storage keys
removed, and `SCRAPE_FAILED` is sent when `notifyFailure` (a completion
reason sends `SCRAPE_DONE`, anything else sends nothing). -/
def stopScraping (reason : String) (notifyFailure : Bool)
    (st : ContentState) : ContentState × Option OutMessage :=
  if ¬ st.isScrapingActive ∧ ¬ st.scrapingInProgress then (st, none)
  else
    ({ st with
        isScrapingActive := false
        scrapingInProgress := false
        storActive := none
        storCurrentPage := none
        storTotalPages := none },
     if notifyFailure then some (.scrapeFailed reason)
     else if reason.startsWith "Completed all"
         || reason.startsWith "No further pages" then
       some (.scrapeDone reason)
     else none)

/-- The diagnostic `stopScraping` receives when the empty-page threshold is
hit (`src/unnamed/part_010` line 618). -/
def emptyPagesErrMsg (n : Nat) : String :=
  "Scraping stopped: No profiles found for " ++ toString n ++
    " consecutive pages. Selectors may be broken or it" ++
    String.mk [Char.ofNat 39] ++ "s the end of relevant results."

/-- Embeds `processCurrentPage` of `src/unnamed/part_010` lines 610-635, abstracted
over the number of profiles the page yielded.  The returned `Bool` is the
return value of the function: `false` makes both callers return before the
navigation decision, so no navigation follows. -/
def processCurrentPage (numProfiles : Nat) (st : ContentState) :
    Bool × ContentState × Option OutMessage :=
  if numProfiles = 0 then
    let c := st.consecutiveEmptyPages + 1
    let st' := { st with consecutiveEmptyPages := c }
    if MAX_CONSECUTIVE_EMPTY_PAGES ≤ c then
      let (st'', msg) := stopScraping (emptyPagesErrMsg c) true st'
      (false, st'', msg)
    else (true, st', none)
  else (true, { st with consecutiveEmptyPages := 0 }, none)

/-- The ASCII apostrophe, built by code point to keep it out of the
source text. -/
def apos : String := String.mk [Char.ofNat 39]

/-- The no-further-pages completion reason of lines 703 and 789. -/
def noFurtherPagesMsg : String :=
  "No further pages to scrape or " ++ apos ++ "Next" ++ apos ++
    " button not available."

/-- The completion reason computed at lines 701-703 and 787-789:
`totalPages !== null && currentPage >= totalPages` selects the
completed-all message, anything else the no-further-pages message. -/
def completionReason (totalPages : Option Int) (currentPage : Int) : String :=
  match totalPages with
  | some t =>
    if t ≤ currentPage then "Completed all " ++ toString t ++ " pages."
    else noFurtherPagesMsg
  | none => noFurtherPagesMsg

/-- Storage and in-memory effect of `startScraping` in
`src/unnamed/part_010` lines 654-671: flags on, the in-memory counter
reset to 0 (line 656), `scraperTotalPages` set when known and removed
when null, `scraperActive` and `scraperCurrentPage` set.  The
`scraperConsecutiveEmpty` key is not among the writes. -/
def startScrapingEffect (currentPage : Int) (totalPages : Option Int)
    (st : ContentState) : ContentState :=
  { st with
    isScrapingActive := true
    scrapingInProgress := true
    consecutiveEmptyPages := 0
    storActive := some "true"
    storCurrentPage := some (toString currentPage)
    storTotalPages := totalPages.map toString }

/-- Storage writes of `navigateToNextPage` in `src/unnamed/part_010`
lines 582-589: `scraperActive := "true"`, `scraperCurrentPage := next`,
`scraperTotalPages` set when known and removed when null.  The
`scraperConsecutiveEmpty` key is not among the writes either, so
navigation never persists the empty-page counter. -/
def navigateStorageWrites (nextPage : Int) (totalPages : Option Int)
    (st : ContentState) : ContentState :=
  { st with
    storActive := some "true"
    storCurrentPage := some (toString nextPage)
    storTotalPages := totalPages.map toString }

/-- One continued-session page visit of `src/unnamed/part_010`, composed
exactly as lines 739-803 execute on a valid listing page with no
interleaved stop (the re-checks of `scraperActive` then succeed).  The
reload has reset the module globals, so the counter is rebuilt by line
750 — `parseInt(getItem("scraperConsecutiveEmpty") || "0")` — from a
key nothing ever writes; the `getD 0` reading of a malformed numeral is
never exercised for that reason.  `currentPage`/`totalPages` are the
values lines 743-745 restore (the code round-trips `toString` of its own
writes).  Then `processCurrentPage` runs on the number of profiles the
page yielded; a `false` return ends the visit with the message it sent;
otherwise the navigation decision (`shouldNavigate`, with `canGoNext`
from `ensureNextButtonReady`) either performs the storage writes of
`navigateToNextPage` or stops with the completion reason.  Returns
whether a navigation was triggered, the state the next load will see,
and the message sent. -/
def continuedPageVisit (numProfiles : Nat) (canGoNext : Bool)
    (currentPage : Int) (totalPages : Option Int) (st : ContentState) :
    Bool × ContentState × Option OutMessage :=
  let st0 : ContentState :=
    { st with
      isScrapingActive := true
      scrapingInProgress := true
      consecutiveEmptyPages :=
        ((jsParseInt (jsOrDefault st.storConsecutiveEmpty "0")).getD 0).toNat }
  let r := processCurrentPage numProfiles st0
  if ¬ r.1 then (false, r.2.1, r.2.2)
  else if shouldNavigate totalPages currentPage canGoNext then
    (true, navigateStorageWrites (currentPage + 1) totalPages r.2.1, none)
  else
    let sp := stopScraping (completionReason totalPages currentPage) false r.2.1
    (false, sp.1, sp.2)

/-- An unbroken run of continued-session visits to pages that yield no
profiles but keep an enabled next control, with `totalPages` unknown —
the stale-selector scenario of the spec. -/
def iterateEmptyVisits : Nat → Int → ContentState → ContentState
  | 0, _, st => st
  | n + 1, c, st =>
    iterateEmptyVisits n (c + 1) (continuedPageVisit 0 true c none st).2.1

end ContentV2

/-! ## `Extractor` — `src/src/lib/extractor.js` -/

namespace Extractor

/-- Embeds `statusPhrases` of `src/src/lib/extractor.js` lines 197-206. -/
def statusPhrases : List String :=
  ["Status is offline", "Status is online", "Online", "Offline", "Away",
   "Busy", "Last seen", "Active now"]

/-- Embeds `isStatusText`: `name.toLowerCase().includes(phrase.toLowerCase())` for
some phrase. -/
def isStatusText (name : String) : Bool :=
  statusPhrases.any (fun p => containsL (jsToLower name).data (jsToLower p).data)

/-- The character class of the anchored name-validity regex of line 216:
ASCII letters, whitespace, the Latin-1 supplement and extended Latin
ranges (U+00C0-U+017F, U+0100-U+024F, U+1E00-U+1EFF), general punctuation
(U+2000-U+206F), Cyrillic (U+0400-U+04FF, U+0500-U+052F, U+2DE0-U+2DFF,
U+A640-U+A69F), Greek (U+0370-U+03FF, U+1F00-U+1FFF) and parentheses. -/
def letterLikeChar (c : Char) : Bool :=
  ('a' ≤ c ∧ c ≤ 'z') ∨ ('A' ≤ c ∧ c ≤ 'Z') ∨ jsWhitespace c ∨
    (0xC0 ≤ c.toNat ∧ c.toNat ≤ 0x17F) ∨
    (0x100 ≤ c.toNat ∧ c.toNat ≤ 0x24F) ∨
    (0x1E00 ≤ c.toNat ∧ c.toNat ≤ 0x1EFF) ∨
    (0x2000 ≤ c.toNat ∧ c.toNat ≤ 0x206F) ∨
    (0x400 ≤ c.toNat ∧ c.toNat ≤ 0x4FF) ∨
    (0x500 ≤ c.toNat ∧ c.toNat ≤ 0x52F) ∨
    (0x2DE0 ≤ c.toNat ∧ c.toNat ≤ 0x2DFF) ∨
    (0xA640 ≤ c.toNat ∧ c.toNat ≤ 0xA69F) ∨
    (0x370 ≤ c.toNat ∧ c.toNat ≤ 0x3FF) ∨
    (0x1F00 ≤ c.toNat ∧ c.toNat ≤ 0x1FFF) ∨ c = '(' ∨ c = ')'

/-- Embeds `regex.test(name)` for the anchored class-plus pattern: true exactly
when the first character lies in the class. -/
def startsLetterLike (name : String) : Bool :=
  match name.data with
  | [] => false
  | c :: _ => letterLikeChar c

/-- Embeds `isValidName` of `src/src/lib/extractor.js` lines 196-220. -/
def isValidName (name : String) : Bool :=
  decide (name.length > 1) && decide (name.length < 100) &&
    !isStatusText name && startsLetterLike name

/-- Embeds `urlParts.replace(..., "")` with the pattern "hyphen then digits then
end of string": drop one trailing hyphen-digits suffix. -/
def stripNumSuffix (l : List Char) : List Char :=
  let r := l.reverse
  let ds := r.takeWhile isDigitChar
  match ds, r.drop ds.length with
  | _ :: _, '-' :: rest => rest.reverse
  | _, _ => l

/-- Embeds `word.charAt(0).toUpperCase() + word.slice(1).toLowerCase()`. -/
def titleCase (l : List Char) : List Char :=
  match l with
  | [] => []
  | c :: cs => c.toUpper :: cs.map Char.toLower

/-- The token filter of `extractNameFallback`:
`part.length > 1 && !/^\d+$/.test(part)`. -/
def keepToken (l : List Char) : Bool :=
  decide (l.length > 1) && !isAllDigits l

/-- Embeds `profileLink.split("/in/")[1]`, i.e. what follows the first `/in/`
(`none` when the marker is absent; the later cut at the first `/` makes
this equal to the real `split` element). -/
def afterInMarker : List Char → Option (List Char)
  | '/' :: 'i' :: 'n' :: '/' :: rest => some rest
  | _ :: cs => afterInMarker cs
  | [] => none

/-- Embeds `extractNameFallback` of `src/src/lib/extractor.js` lines 223-246:
isolate the trailing path segment, and when it is longer than 2, strip a
numeric suffix, split on hyphens, drop one-character and all-digit tokens,
title-case the rest, join with spaces, and accept the result only when it
too is longer than 2; otherwise `""`. -/
def extractNameFallback (profileLink : String) : String :=
  match afterInMarker profileLink.data with
  | none => ""
  | some rest =>
    let seg := takeUntil '/' (takeUntil '?' rest)
    if seg.length > 2 then
      let nameFromUrl :=
        String.intercalate " "
          (((splitOn '-' (stripNumSuffix seg)).filter keepToken).map
            (fun w => String.mk (titleCase w)))
      if nameFromUrl.length > 2 then nameFromUrl else ""
    else ""

end Extractor

/-- The fallback derivation exactly as the claim words it: take the trailing
path segment, strip the numeric suffix, split on hyphens, title-case the
tokens and rejoin with spaces.  Stated from the spec, for comparison with
the code (which additionally filters out short and all-digit tokens). -/
def claimFallbackName (profileLink : String) : String :=
  match Extractor.afterInMarker profileLink.data with
  | none => ""
  | some rest =>
    let seg := takeUntil '/' (takeUntil '?' rest)
    String.intercalate " "
      ((splitOn '-' (Extractor.stripNumSuffix seg)).map
        (fun w => String.mk (Extractor.titleCase w)))

/-! ## Shared helper lemmas -/

/-- Embeds `dropWhile` either exhausts the list or stops at a failing element. -/
theorem dropWhile_eq_nil_or_head_false (p : Char → Bool) :
    ∀ l : List Char, l.dropWhile p = [] ∨
      ∃ c t, l.dropWhile p = c :: t ∧ p c = false := by
  intro l
  induction l with
  | nil => left; rfl
  | cons c t ih =>
    by_cases h : p c
    · simpa [List.dropWhile_cons, h] using ih
    · right
      exact ⟨c, t, by simp [List.dropWhile_cons, h], by simpa using h⟩

namespace Utils

/-- Embeds `takeNonSlashQ` only returns characters other than `/` and `?`. -/
theorem takeNonSlashQ_mem :
    ∀ l : List Char, ∀ c ∈ takeNonSlashQ l, c ≠ '/' ∧ c ≠ '?' := by
  intro l
  induction l with
  | nil => intro c hc; cases hc
  | cons d ds ih =>
    intro c hc
    by_cases h : d = '/' ∨ d = '?'
    · simp [takeNonSlashQ, h] at hc
    · simp only [takeNonSlashQ, if_neg h, List.mem_cons] at hc
      rcases hc with hc | hc
      · subst hc
        exact ⟨fun h1 => h (Or.inl h1), fun h2 => h (Or.inr h2)⟩
      · exact ih c hc

/-- Embeds `takeNonSlashQ` is a maximal run: what follows it is empty or starts
with `/` or `?`. -/
theorem takeNonSlashQ_decomp :
    ∀ l : List Char, ∃ rest, l = takeNonSlashQ l ++ rest ∧
      (rest = [] ∨ ∃ d t, rest = d :: t ∧ (d = '/' ∨ d = '?')) := by
  intro l
  induction l with
  | nil => exact ⟨[], rfl, Or.inl rfl⟩
  | cons c cs ih =>
    by_cases h : c = '/' ∨ c = '?'
    · exact ⟨c :: cs, by simp [takeNonSlashQ, h], Or.inr ⟨c, cs, rfl, h⟩⟩
    · obtain ⟨rest, hdec, hrest⟩ := ih
      refine ⟨rest, ?_, hrest⟩
      simp only [takeNonSlashQ, if_neg h, List.cons_append]
      exact congrArg (c :: ·) hdec

/-- Inversion of one regex attempt: a successful `inMatchAt` exposes the
`/in/` literal, the first segment character and the maximal run. -/
theorem inMatchAt_eq_some {l r : List Char} (h : inMatchAt l = some r) :
    ∃ d ds, l = '/' :: 'i' :: 'n' :: '/' :: d :: ds ∧
      ¬(d = '/' ∨ d = '?') ∧ r = d :: takeNonSlashQ ds := by
  rcases l with _ | ⟨a, _ | ⟨b, _ | ⟨c, _ | ⟨d, _ | ⟨e, ds⟩⟩⟩⟩⟩ <;>
    simp only [inMatchAt] at h
  · exact Option.noConfusion h
  · exact Option.noConfusion h
  · exact Option.noConfusion h
  · exact Option.noConfusion h
  · exact Option.noConfusion h
  · split at h
    · rename_i hcond
      obtain ⟨ha, hb, hc, hd, he⟩ := hcond
      subst ha; subst hb; subst hc; subst hd
      exact ⟨e, ds, rfl, he, (Option.some_inj.mp h).symm⟩
    · exact Option.noConfusion h

/-- A successful regex attempt somewhere in the scan: `findInId` returns
the match of some position. -/
theorem findInId_eq_some {l r : List Char} (h : findInId l = some r) :
    ∃ pre l2, l = pre ++ l2 ∧ inMatchAt l2 = some r := by
  induction l with
  | nil => exact Option.noConfusion h
  | cons c cs ih =>
    rw [findInId] at h
    rcases hm : inMatchAt (c :: cs) with _ | v
    · rw [hm] at h
      obtain ⟨pre, l2, hdec, hmatch⟩ := ih h
      exact ⟨c :: pre, l2, by simp [hdec], hmatch⟩
    · rw [hm] at h
      have h2 : some v = some r := h
      exact ⟨[], c :: cs, rfl, hm.trans h2⟩

/-- Completeness of the scan: a position that matches makes `findInId`
succeed. -/
theorem findInId_isSome (pre : List Char) (e : Char) (ds : List Char)
    (he : ¬(e = '/' ∨ e = '?')) :
    (findInId (pre ++ '/' :: 'i' :: 'n' :: '/' :: e :: ds)).isSome = true := by
  induction pre with
  | nil =>
    rw [List.nil_append, findInId]
    simp [inMatchAt, he]
  | cons c cs ih =>
    rw [List.cons_append, findInId]
    rcases hm : inMatchAt (c :: (cs ++ '/' :: 'i' :: 'n' :: '/' :: e :: ds)) with _ | v
    · exact ih
    · rfl

/-- The id the regex returns is never empty. -/
theorem findInId_ne_nil {l r : List Char} (h : findInId l = some r) :
    r ≠ [] := by
  obtain ⟨pre, l2, _, hmatch⟩ := findInId_eq_some h
  obtain ⟨d, ds, _, _, hr⟩ := inMatchAt_eq_some hmatch
  simp [hr]

end Utils

/-! ## Claim theorems -/

/-- C1.  On every fresh page-load rehydration, a session storage holding
both the sticky stopped flag and the active flag is terminal: the
should-continue check returns false and `checkContinueScraping` aborts
(so neither extraction nor navigation is scheduled) — stopped wins over a
stale active flag, whatever page-validity holds. -/
theorem C1_stopped_dominates_active (s : SessionStorage) (v : Bool)
    (hstop : s.stopped = some "true") (_hact : s.active = some "true") :
    StateMod.checkShouldContinue s = false ∧
      Controller.checkContinueScraping s v = RehydrateAction.abort := by
  refine ⟨?_, ?_⟩
  · simp [StateMod.checkShouldContinue, hstop]
  · simp [Controller.checkContinueScraping, StateMod.isScrapingStopped, hstop]

/-- Witness for C1 at a concrete storage state (both flags set, page
counters present, on a valid listing page). -/
theorem C1_stopped_dominates_active_witness :
    StateMod.checkShouldContinue
        ⟨some "true", some "true", some "4", some "9"⟩ = false ∧
      Controller.checkContinueScraping
        ⟨some "true", some "true", some "4", some "9"⟩ true
        = RehydrateAction.abort :=
  C1_stopped_dominates_active ⟨some "true", some "true", some "4", some "9"⟩
    true rfl rfl

/-- C2 counterexample.  The `part_010` navigation decision is not the
disjunction of the spec: with `totalPages = 5` known, `currentPage = 3` and no
detected next control, the spec formula continues but the code stops. -/
theorem C2_counterexample :
    ContentV2.shouldNavigate (some 5) 3 false = false ∧
      specContinuation (some 5) 3 false = true := by
  exact ⟨rfl, rfl⟩

/-- C2 (amended).  The modular decision of the controller is exactly the spec
disjunction (`currentPage < totalPages || next`); the `part_010` content
script instead requires a detected next control whenever it navigates:
it continues iff `next && (totalPages unknown || currentPage <
totalPages)`.  The three scenarios of the spec hold on the decisions that can
express them. -/
theorem C2_continuation_decision :
    (∀ (c t : Int) (n : Bool),
        Controller.continueDecision c t n = specContinuation (some t) c n) ∧
    (∀ (tp : Option Int) (c : Int) (n : Bool),
        ContentV2.shouldNavigate tp c n =
          (n && match tp with
                | some t => decide (c < t)
                | none => true)) ∧
    Controller.continueDecision 3 5 false = true ∧
    Controller.continueDecision 5 5 false = false ∧
    ContentV2.shouldNavigate (some 5) 5 false = false ∧
    ContentV2.shouldNavigate none 7 true = true := by
  refine ⟨?_, ?_, rfl, rfl, rfl, rfl⟩
  · intro c t n
    rfl
  · intro tp c n
    cases tp <;> simp [ContentV2.shouldNavigate, Bool.and_comm]

/-- C3 counterexample.  On a DOM where every pagination strategy fails,
the modular detector (`src/src/lib/notifier.js` lines 114-161) returns 1:
it defaults to one page instead of reporting an unknown total. -/
theorem C3_counterexample :
    Pagination.getTotalPages emptyPaginationDom = 1 := rfl

/-- C3 (amended).  When every strategy fails (no selector matches, no
indicator buttons), the `part_010` detector reports `null` — a value
distinct from any page count, letting its navigator fall back to
next-button presence — while the modular detector defaults to 1. -/
theorem C3_total_pages_all_fail (dom : PaginationDom)
    (hq : ∀ sel, dom.query sel = none)
    (hi : dom.indicatorNumbers = []) :
    ContentV2.getTotalPages dom = none ∧
      Pagination.getTotalPages dom = 1 := by
  have hcore : paginationCore dom = none := by
    simp [paginationCore, scanPagination, paginationSelectors, hq, hi]
  exact ⟨hcore, by simp [Pagination.getTotalPages, hcore]⟩

/-- Witness for C3 at the concrete all-fail DOM. -/
theorem C3_total_pages_all_fail_witness :
    ContentV2.getTotalPages emptyPaginationDom = none ∧
      Pagination.getTotalPages emptyPaginationDom = 1 :=
  C3_total_pages_all_fail emptyPaginationDom (fun _ => rfl) rfl

/-- C5 (code evaluated at the failing input).  The background collaborator
satisfies the claim: an empty `putMany` still initializes the store,
saves 0 and leaves the stored records (hence the count) unchanged, and
the modular `storageApi.saveProfiles` always makes the call, with `[]`
for a missing list.  But the legacy `src/scraper.js` `saveProfiles`
returns before sending anything when the list is empty, so the
`saveProfiles([])` call its own call site annotates with "Still save the
empty array to trigger IndexedDB creation" never reaches the store. -/
theorem C5_empty_save_evaluation :
    (∀ db : Background.Database,
        Background.handleSaveProfiles db [] =
          ({ initialized := true, records := db.records }, 0,
            db.records.length)) ∧
    saveProfilesLegacy [] = SaveCall.skipped ∧
    saveProfilesStorageApi (some []) = SaveCall.made [] ∧
    saveProfilesStorageApi none = SaveCall.made [] := by
  refine ⟨?_, rfl, rfl, rfl⟩
  intro db
  rfl

/-- C10.  Start-command state initialization (the popup state module and
the `part_009` start path alike) removes the sticky stopped key and only
then arms the session: afterwards `stopped` is absent and `active`,
`currentPage`, `totalPages` are set.  The stop path sets the stopped key;
pre-navigation persistence (`setNavigationState`) never touches it; the
rehydration readers (`checkShouldContinue`, `isScrapingStopped`,
`restoreStateFromSession`) return values without writing storage, so no
other operation clears the flag. -/
theorem C10_start_clears_stopped :
    (∀ (p t : Int) (s : SessionStorage),
        (StateMod.initializeScrapingState p t s).stopped = none ∧
        (StateMod.initializeScrapingState p t s).active = some "true" ∧
        (StateMod.initializeScrapingState p t s).currentPage
          = some (toString p) ∧
        (StateMod.initializeScrapingState p t s).totalPages
          = some (toString t)) ∧
    (∀ (p t : Int) (s : SessionStorage),
        startScrapingStorageV1 p t s = StateMod.initializeScrapingState p t s) ∧
    (∀ s : SessionStorage,
        (StateMod.stopScrapingState s).stopped = some "true") ∧
    (∀ (n t : Int) (s : SessionStorage),
        (StateMod.setNavigationState n t s).stopped = s.stopped) := by
  refine ⟨fun p t s => ⟨rfl, rfl, rfl, rfl⟩, fun p t s => rfl,
    fun s => rfl, fun n t s => rfl⟩

/-- The id extractor never produces the empty string: a match always
contains at least the character after `/in/`. -/
theorem extractProfileId_ne_empty {u : Option String} {i : String}
    (h : Utils.extractProfileId u = some i) : i ≠ "" := by
  rcases u with _ | s
  · exact Option.noConfusion h
  · by_cases hs : s = ""
    · simp [Utils.extractProfileId, hs] at h
    · rw [Utils.extractProfileId, if_neg hs, Option.map_eq_some'] at h
      obtain ⟨r, hr, hmk⟩ := h
      have hne := Utils.findInId_ne_nil hr
      intro hcontr
      apply hne
      have : i.data = r := by rw [← hmk]
      rw [hcontr] at this
      exact this.symm

/-- On string options, the id side of the falsiness test of the validator is
exactly "no id was derived". -/
theorem jsFalsy_extractProfileId (u : Option String) :
    jsFalsy (Utils.extractProfileId u) = true ↔
      Utils.extractProfileId u = none := by
  rcases h : Utils.extractProfileId u with _ | i
  · simp [jsFalsy]
  · simp [jsFalsy]
    exact extractProfileId_ne_empty h

/-- C4.  The validator emits no record exactly when the id or the
canonical URL cannot be derived from the link of the candidate (the empty
canonical URL counts as underivable, which is what the falsiness
test checks; a derived id is never empty).  When both are derivable the
record is always emitted, with each missing field replaced by its fixed
placeholder. -/
theorem C4_partial_save_policy (link : Option String)
    (nm hd loc : String) (now : Nat) :
    (Validator.createValidatedProfile link nm hd loc now = none ↔
      (Utils.extractProfileId (Utils.cleanProfileUrl link) = none ∨
        jsFalsy (Utils.cleanProfileUrl link) = true)) ∧
    ((Utils.extractProfileId (Utils.cleanProfileUrl link) ≠ none ∧
        jsFalsy (Utils.cleanProfileUrl link) = false) →
      Validator.createValidatedProfile link nm hd loc now =
        some
          { id := (Utils.extractProfileId (Utils.cleanProfileUrl link)).getD ""
            name := if nm = "" then "Name not available" else nm
            url := (Utils.cleanProfileUrl link).getD ""
            headline := if hd = "" then "Headline not available" else hd
            location := if loc = "" then "Location not available" else loc
            scrapedAt := now }) := by
  by_cases hE : jsFalsy (Utils.extractProfileId (Utils.cleanProfileUrl link)) = true
  · have hnone := (jsFalsy_extractProfileId (Utils.cleanProfileUrl link)).mp hE
    constructor
    · constructor
      · intro _
        exact Or.inl hnone
      · intro _
        simp [Validator.createValidatedProfile, hE]
    · rintro ⟨hne, _⟩
      exact absurd hnone hne
  · have hEf : jsFalsy (Utils.extractProfileId (Utils.cleanProfileUrl link))
        = false := by
      simpa using hE
    by_cases hU : jsFalsy (Utils.cleanProfileUrl link) = true
    · constructor
      · constructor
        · intro _
          exact Or.inr hU
        · intro _
          simp [Validator.createValidatedProfile, hU]
      · rintro ⟨_, hUf⟩
        rw [hU] at hUf
        exact Bool.noConfusion hUf
    · have hUf : jsFalsy (Utils.cleanProfileUrl link) = false := by
        simpa using hU
      constructor
      · constructor
        · intro hcontr
          simp [Validator.createValidatedProfile, hEf, hUf] at hcontr
        · rintro (h1 | h2)
          · exact absurd ((jsFalsy_extractProfileId _).mpr h1) hE
          · exact absurd h2 hU
      · intro _
        simp [Validator.createValidatedProfile, hEf, hUf, Validator.jsOr]

/-- Witness for C4: on a candidate whose link yields an id and URL but
whose name, headline and location are all missing, the record is emitted
with the three placeholders; the rejection side of the claim fires on an
underivable link. -/
theorem C4_partial_save_policy_witness :
    Validator.createValidatedProfile
        (some "https://site.example/in/jane-doe-123?trk=abc") "" "" "" 0 =
      some
        { id := "jane-doe-123", name := "Name not available"
          url := "https://site.example/in/jane-doe-123"
          headline := "Headline not available"
          location := "Location not available", scrapedAt := 0 } ∧
      Validator.createValidatedProfile (some "https://site.example/feed")
          "Jane" "x" "y" 0 = none := by
  constructor
  · have h := (C4_partial_save_policy
      (some "https://site.example/in/jane-doe-123?trk=abc") "" "" "" 0).2
      ⟨by decide, by decide⟩
    exact h.trans (by decide)
  · exact (C4_partial_save_policy (some "https://site.example/feed")
      "Jane" "x" "y" 0).1.mpr (Or.inl (by decide))

/-- C6 (the code evaluated at the failing input).  The in-page threshold
logic exists, but it is unreachable across navigations: the counter is a
module global that every reload resets, line 750 restores it from the
`scraperConsecutiveEmpty` key — whose read defaults to `"0"` and which
no storage write of `part_010` (session start, navigation, stop) ever
sets — and `startScraping` resets it to 0.  So on every continued-session
visit to a page that yields no profiles but still shows an enabled next
control (`totalPages` unknown, the stale-selector scenario), the counter
enters at 0, rises only to 1, the visit navigates and sends no message,
and the key stays absent; iterating any number of such visits therefore
never produces the threshold-3 `SCRAPE_FAILED` transition — the session
continues past consecutive zero-extraction pages unboundedly, against
the claim (and against the intent of line 750, whose comment reads
"Persist this too"). -/
theorem C6_empty_pages_unbounded :
    jsParseInt (jsOrDefault none "0") = some 0 ∧
    (∀ (p : Int) (t : Option Int) (st : ContentV2.ContentState),
        (ContentV2.startScrapingEffect p t st).storConsecutiveEmpty
            = st.storConsecutiveEmpty ∧
          (ContentV2.navigateStorageWrites p t st).storConsecutiveEmpty
            = st.storConsecutiveEmpty) ∧
    (∀ (r : String) (b : Bool) (st : ContentV2.ContentState),
        (ContentV2.stopScraping r b st).1.storConsecutiveEmpty
          = st.storConsecutiveEmpty) ∧
    (∀ (c : Int) (st : ContentV2.ContentState),
        st.storConsecutiveEmpty = none →
          ContentV2.continuedPageVisit 0 true c none st =
            (true,
              { st with
                isScrapingActive := true
                scrapingInProgress := true
                consecutiveEmptyPages := 1
                storActive := some "true"
                storCurrentPage := some (toString (c + 1))
                storTotalPages := none },
              none)) ∧
    (∀ (n : Nat) (c : Int) (st : ContentV2.ContentState),
        st.storConsecutiveEmpty = none →
          (ContentV2.iterateEmptyVisits n c st).storConsecutiveEmpty = none ∧
          (ContentV2.continuedPageVisit 0 true c none
              (ContentV2.iterateEmptyVisits n c st)).1 = true ∧
          (ContentV2.continuedPageVisit 0 true c none
              (ContentV2.iterateEmptyVisits n c st)).2.2 = none) := by
  have hval : ((jsParseInt (jsOrDefault (none : Option String) "0")).getD
      0).toNat = 0 := by decide
  have step : ∀ (c : Int) (st : ContentV2.ContentState),
      st.storConsecutiveEmpty = none →
        ContentV2.continuedPageVisit 0 true c none st =
          (true,
            { st with
              isScrapingActive := true
              scrapingInProgress := true
              consecutiveEmptyPages := 1
              storActive := some "true"
              storCurrentPage := some (toString (c + 1))
              storTotalPages := none },
            none) := by
    intro c st h
    simp [ContentV2.continuedPageVisit, ContentV2.processCurrentPage,
      ContentV2.MAX_CONSECUTIVE_EMPTY_PAGES, ContentV2.shouldNavigate,
      ContentV2.navigateStorageWrites, h, hval]
  have iter : ∀ (n : Nat) (c : Int) (st : ContentV2.ContentState),
      st.storConsecutiveEmpty = none →
        (ContentV2.iterateEmptyVisits n c st).storConsecutiveEmpty = none := by
    intro n
    induction n with
    | zero => intro c st h; exact h
    | succ m ih =>
      intro c st h
      rw [ContentV2.iterateEmptyVisits]
      apply ih
      rw [step c st h]
      exact h
  refine ⟨by decide, fun p t st => ⟨rfl, rfl⟩, ?_, step, ?_⟩
  · intro r b st
    unfold ContentV2.stopScraping
    split <;> rfl
  · intro n c st h
    have hinv := iter n c st h
    refine ⟨hinv, ?_, ?_⟩
    · rw [step c _ hinv]
    · rw [step c _ hinv]

/-- Witness for C6 on a concrete rehydrated session (active, page 4,
total unknown, counter key absent): one empty-page visit navigates with
no message, and after five further empty-page visits the key is still
absent and the next visit still navigates. -/
theorem C6_empty_pages_unbounded_witness :
    ContentV2.continuedPageVisit 0 true 4 none
        ⟨false, false, 0, some "true", some "4", none, none⟩ =
      (true, ⟨true, true, 1, some "true", some "5", none, none⟩, none) ∧
    (ContentV2.iterateEmptyVisits 5 4
        ⟨false, false, 0, some "true", some "4", none, none⟩).storConsecutiveEmpty
      = none ∧
    (ContentV2.continuedPageVisit 0 true 4 none
        (ContentV2.iterateEmptyVisits 5 4
          ⟨false, false, 0, some "true", some "4", none, none⟩)).1 = true := by
  refine ⟨?_, ?_, ?_⟩
  · exact (C6_empty_pages_unbounded.2.2.2.1) 4
      ⟨false, false, 0, some "true", some "4", none, none⟩ rfl
  · exact ((C6_empty_pages_unbounded.2.2.2.2) 5 4
      ⟨false, false, 0, some "true", some "4", none, none⟩ rfl).1
  · exact ((C6_empty_pages_unbounded.2.2.2.2) 5 4
      ⟨false, false, 0, some "true", some "4", none, none⟩ rfl).2.1

/-- C7 counterexample.  `canonicalize` is not a prefix truncation on every
URL string: on the empty string the prefix up to the first `?` is `""`,
but the falsiness guard of the code returns `null` instead. -/
theorem C7_counterexample :
    Utils.cleanProfileUrl (some "") ≠ some "" ∧
      Utils.cleanProfileUrl (some "") = none := by
  exact ⟨by decide, rfl⟩

/-- C7 (amended).  For every nonempty URL string, canonicalization
returns exactly the prefix up to (not including) the first `?`: the
result followed by the remainder reassembles the input unchanged (so
everything before the first `?`, fragments included, is preserved
verbatim and nothing else is transformed), the result contains no `?`,
and the remainder is empty or starts with `?`.  The empty string (like a
null link) maps to `null`. -/
theorem C7_prefix_truncation (s : String) (h : s ≠ "") :
    ∃ t : String, Utils.cleanProfileUrl (some s) = some t ∧
      t.data ++ s.data.dropWhile (fun c => c ≠ '?') = s.data ∧
      (∀ c ∈ t.data, c ≠ '?') ∧
      (s.data.dropWhile (fun c => c ≠ '?') = [] ∨
        ∃ rest, s.data.dropWhile (fun c => c ≠ '?') = '?' :: rest) := by
  refine ⟨String.mk (takeUntil '?' s.data), ?_, ?_, ?_, ?_⟩
  · simp [Utils.cleanProfileUrl, h]
  · exact List.takeWhile_append_dropWhile (p := fun c => decide (c ≠ '?'))
      (l := s.data)
  · intro c hc
    have hm := List.mem_takeWhile_imp (l := s.data)
      (p := fun c => decide (c ≠ '?')) hc
    simpa using hm
  · rcases dropWhile_eq_nil_or_head_false (fun c => decide (c ≠ '?')) s.data
      with h1 | ⟨c, t, h1, h2⟩
    · exact Or.inl h1
    · right
      refine ⟨t, ?_⟩
      have hc : c = '?' := by simpa using h2
      rw [h1, hc]

/-- Witness for C7 on a URL with a fragment before its query: the prefix
is cut at the first `?` and the fragment survives. -/
theorem C7_prefix_truncation_witness :
    ∃ t : String,
      Utils.cleanProfileUrl (some "https://site.example/in/jd#frag?trk=abc")
          = some t ∧
      t.data ++ ("https://site.example/in/jd#frag?trk=abc" : String).data.dropWhile
          (fun c => c ≠ '?') =
        ("https://site.example/in/jd#frag?trk=abc" : String).data ∧
      (∀ c ∈ t.data, c ≠ '?') ∧
      (("https://site.example/in/jd#frag?trk=abc" : String).data.dropWhile
          (fun c => c ≠ '?') = [] ∨
        ∃ rest,
          ("https://site.example/in/jd#frag?trk=abc" : String).data.dropWhile
            (fun c => c ≠ '?') = '?' :: rest) :=
  C7_prefix_truncation "https://site.example/in/jd#frag?trk=abc" (by decide)

/-- C8 counterexample.  A URL containing the `/in/` marker where the
marker is followed by nothing: the claim promises "the path segment
immediately following `/in/` up to the next `/`, `?` or end of string"
(here the empty segment), but the code returns no id at all. -/
theorem C8_counterexample :
    containsL ("https://site.example/in/" : String).data
        ("/in/" : String).data = true ∧
      Utils.extractProfileId (some "https://site.example/in/") = none := by
  exact ⟨by decide, by decide⟩

/-- C8 (amended).  Whenever id derivation returns an id, the id is a
nonempty run of characters other than `/` and `?` standing verbatim in
the URL (percent-encoded bytes included) immediately after an `/in/`
occurrence, and the run is maximal: what follows it is `/`, `?` or the
end of the string.  Conversely, whenever some `/in/` occurrence is
followed by at least one such character the derivation succeeds; it is a
pure function of the URL, so equal canonical URLs always receive equal
ids.  On `https://site.example/in/jane-doe-123` the id is
`jane-doe-123`. -/
theorem C8_id_derivation :
    (∀ u i : String, Utils.extractProfileId (some u) = some i →
        i ≠ "" ∧ (∀ c ∈ i.data, c ≠ '/' ∧ c ≠ '?') ∧
        ∃ pre rest,
          u.data = pre ++ ('/' :: 'i' :: 'n' :: '/' :: (i.data ++ rest)) ∧
          (rest = [] ∨ ∃ d t, rest = d :: t ∧ (d = '/' ∨ d = '?'))) ∧
    (∀ (pre : List Char) (e : Char) (ds : List Char), ¬(e = '/' ∨ e = '?') →
        (Utils.extractProfileId
          (some (String.mk
            (pre ++ '/' :: 'i' :: 'n' :: '/' :: e :: ds)))).isSome = true) ∧
    Utils.extractProfileId (some "https://site.example/in/jane-doe-123")
      = some "jane-doe-123" := by
  refine ⟨?_, ?_, by decide⟩
  · intro u i h
    by_cases hu : u = ""
    · simp [Utils.extractProfileId, hu] at h
    · rw [Utils.extractProfileId, if_neg hu, Option.map_eq_some'] at h
      obtain ⟨r, hr, hmk⟩ := h
      have hidata : i.data = r := by rw [← hmk]
      obtain ⟨pre, l2, hdec, hmatch⟩ := Utils.findInId_eq_some hr
      obtain ⟨d, ds, hl2, hd, hr2⟩ := Utils.inMatchAt_eq_some hmatch
      obtain ⟨rest, hds, hrest⟩ := Utils.takeNonSlashQ_decomp ds
      refine ⟨?_, ?_, pre, rest, ?_, hrest⟩
      · intro hcontr
        have hnil : i.data = [] := by simp [hcontr]
        rw [hidata, hr2] at hnil
        exact List.noConfusion hnil
      · intro c hc
        rw [hidata, hr2] at hc
        rcases List.mem_cons.mp hc with hc1 | hc1
        · subst hc1
          exact ⟨fun h1 => hd (Or.inl h1), fun h2 => hd (Or.inr h2)⟩
        · exact Utils.takeNonSlashQ_mem ds c hc1
      · rw [hdec, hl2, hidata, hr2]
        have : d :: ds = (d :: Utils.takeNonSlashQ ds) ++ rest := by
          rw [List.cons_append]
          exact congrArg (d :: ·) hds
        rw [this]
  · intro pre e ds he
    have hne : String.mk (pre ++ '/' :: 'i' :: 'n' :: '/' :: e :: ds) ≠ "" := by
      intro hc
      have hdata := congrArg String.data hc
      simp at hdata
    rw [Utils.extractProfileId, if_neg hne, Option.isSome_map']
    exact Utils.findInId_isSome pre e ds he

/-- Witness for C8 at the canonical example URL of the spec. -/
theorem C8_id_derivation_witness :
    ("jane-doe-123" : String) ≠ "" ∧
      (∀ c ∈ ("jane-doe-123" : String).data, c ≠ '/' ∧ c ≠ '?') ∧
      ∃ pre rest,
        ("https://site.example/in/jane-doe-123" : String).data =
          pre ++ ('/' :: 'i' :: 'n' :: '/' ::
            (("jane-doe-123" : String).data ++ rest)) ∧
        (rest = [] ∨ ∃ d t, rest = d :: t ∧ (d = '/' ∨ d = '?')) :=
  C8_id_derivation.1 "https://site.example/in/jane-doe-123" "jane-doe-123"
    (by decide)

/-- C9 counterexample.  The fallback is not plain
strip-split-titlecase-join: the code also drops one-character and
all-digit tokens, so on segment `jane-x-doe-456` the claimed procedure
gives `Jane X Doe` while the code gives `Jane Doe`. -/
theorem C9_counterexample :
    claimFallbackName "https://site.example/in/jane-x-doe-456"
        = "Jane X Doe" ∧
      Extractor.extractNameFallback "https://site.example/in/jane-x-doe-456"
        = "Jane Doe" ∧
      ("Jane X Doe" : String) ≠ "Jane Doe" := by
  exact ⟨by decide, by decide, by decide⟩

/-- C9 (amended).  A raw name candidate is accepted iff its length is
between 2 and 99 inclusive, it contains no phrase of the presence/status
set (case-insensitively) and it starts with a character of the permitted
letter-like ranges; `Status is online` is rejected.  When no candidate is
accepted, the fallback strips the numeric suffix of the trailing path
segment of the URL, splits on hyphens, drops one-character and all-digit
tokens, title-cases the remaining tokens and joins them with spaces
(returning a name only when segment and result are longer than two
characters): segment `jane-doe-123` yields `Jane Doe`, and the token
filter makes `jane-x-doe-456` yield `Jane Doe` as well. -/
theorem C9_name_validation :
    (∀ n : String, Extractor.isValidName n = true ↔
        (2 ≤ n.length ∧ n.length ≤ 99 ∧ Extractor.isStatusText n = false ∧
          Extractor.startsLetterLike n = true)) ∧
    Extractor.isValidName "Status is online" = false ∧
    Extractor.extractNameFallback "https://site.example/in/jane-doe-123"
      = "Jane Doe" ∧
    Extractor.extractNameFallback "https://site.example/in/jane-x-doe-456"
      = "Jane Doe" := by
  refine ⟨?_, by decide, by decide, by decide⟩
  intro n
  constructor
  · intro h
    simp only [Extractor.isValidName, Bool.and_eq_true, decide_eq_true_iff,
      Bool.not_eq_true'] at h
    obtain ⟨⟨⟨h1, h2⟩, h3⟩, h4⟩ := h
    exact ⟨by omega, by omega, h3, h4⟩
  · rintro ⟨h1, h2, h3, h4⟩
    simp only [Extractor.isValidName, Bool.and_eq_true, decide_eq_true_iff,
      Bool.not_eq_true']
    exact ⟨⟨⟨by omega, by omega⟩, h3⟩, h4⟩

/-- Witness for C9: a plain two-word name passes the validity test
through the amended characterization. -/
theorem C9_name_validation_witness : Extractor.isValidName "Jane Doe" = true :=
  (C9_name_validation.1 "Jane Doe").mpr
    ⟨by decide, by decide, by decide, by decide⟩
